import Mathlib

/-!
Verification of the pestalarm farm-monitoring alert service (src/app.py).

The embedding models:
  - the rule evaluator evaluate_rules (lines 87-100) as a pure function on
    normalized weather readings with optional numeric fields;
  - the orchestrator run_checks (lines 122-135) as a state-passing function
    over an explicit store (farms, alerts, auto-increment id, clock), with
    the external weather fetch abstracted as a fallible function parameter;
  - the alert listing list_alerts (lines 116-118) as sort-descending-then-
    take-100 over the stored alert rows;
  - the JSON-normalization stage of get_weather (lines 76-85) over an
    inductive JSON value type.
Numeric weather values are rationals (the Python floats carry no
floating-point-specific behavior in any rule: all comparisons are against
small integer thresholds).
-/

namespace PestAlarm

/-- A normalized weather reading as produced by get_weather and consumed by
evaluate_rules: temperature and humidity may be absent (main.get returns
None); rain_mm may be absent in a hand-built dict, which evaluate_rules
reads as 0 via weather.get("rain_mm", 0) or 0. -/
structure Reading where
  temperature : Option ℚ
  humidity : Option ℚ
  rain_mm : Option ℚ
deriving DecidableEq

def powderyLabel : String := "Powdery mildew (possible)"

def aphidsLabel : String := "Aphids (possible)"

def grayMoldLabel : String := "Gray mold / Botrytis (possible)"

/-- The rule evaluator evaluate_rules (src/app.py lines 87-100). All three
threshold rules sit under the single guard hum is not None and temp is not
None; rain defaults to 0 when absent. Appends model the list in evaluation
order. -/
def evaluate_rules (weather : Reading) : List String :=
  match weather.humidity, weather.temperature with
  | some hum, some temp =>
      let rain : ℚ := weather.rain_mm.getD 0
      ((if 80 < hum ∧ 20 ≤ temp ∧ temp ≤ 28 then [powderyLabel] else []) ++
       (if 30 < temp ∧ hum < 40 then [aphidsLabel] else []) ++
       (if 85 < hum ∧ 5 < rain then [grayMoldLabel] else []))
  | _, _ => []

/-- A Farm row (src/app.py lines 18-24). -/
structure Farm where
  id : Nat
  name : String
  latitude : ℚ
  longitude : ℚ
deriving DecidableEq

/-- An Alert row (src/app.py lines 26-32); timestamp defaults to the
insertion time. -/
structure Alert where
  id : Nat
  farm_id : Nat
  message : String
  timestamp : Nat
deriving DecidableEq

/-- The persistent store: farm and alert tables plus the auto-increment
counter for alert ids and a clock supplying insertion timestamps. -/
structure DB where
  farms : List Farm
  alerts : List Alert
  nextAlertId : Nat
  clock : Nat
deriving DecidableEq

def INTERNAL_TOKEN : String := "my-secret-token"

/-- A single-quote character, used in the alert message format. -/
def squote : String := String.singleton (Char.ofNat 39)

/-- The alert message composed at src/app.py line 131: the farm name wrapped
in single quotes, then the matched pest labels joined by a semicolon-space
separator. -/
def alertMessage (name : String) (pests : List String) : String :=
  "Farm " ++ squote ++ name ++ squote ++ " potential pests: " ++
    String.intercalate "; " pests

/-- Inserting one Alert row and committing (src/app.py lines 132-134): the
row receives the next auto-assigned id and the current time as timestamp. -/
def addAlert (db : DB) (fid : Nat) (msg : String) : DB :=
  { db with
    alerts := db.alerts ++ [⟨db.nextAlertId, fid, msg, db.clock⟩],
    nextAlertId := db.nextAlertId + 1,
    clock := db.clock + 1 }

/-- The JSON summary returned by run_checks at line 135. -/
structure Summary where
  status : String
  checked : Nat
deriving DecidableEq

/-- Outcome of a run-checks call, carrying the persisted store in every
case: ok is the 200 response, forbidden the 403 raised at line 125, and
fetchFailed the unhandled weather-fetch exception escaping as a server
error mid-sweep. -/
inductive RunResult where
  | ok (store : DB) (summary : Summary)
  | forbidden (store : DB)
  | fetchFailed (store : DB) (err : String)
deriving DecidableEq

def RunResult.store : RunResult → DB
  | .ok db _ => db
  | .forbidden db => db
  | .fetchFailed db _ => db

/-- The per-farm loop of run_checks (src/app.py lines 127-134): fetch the
weather (a failure aborts with the store as committed so far), evaluate the
rules, and when at least one label matched insert and commit one Alert. -/
def sweep (fetch : ℚ → ℚ → Except String Reading) :
    List Farm → DB → Except (String × DB) DB
  | [], db => .ok db
  | farm :: rest, db =>
    match fetch farm.latitude farm.longitude with
    | .error e => .error (e, db)
    | .ok weather =>
      let pests := evaluate_rules weather
      let db2 := if pests = [] then db
                 else addAlert db farm.id (alertMessage farm.name pests)
      sweep fetch rest db2

/-- The run_checks handler (src/app.py lines 122-135): reject a token that
is not exactly the configured secret with 403 before any processing, else
sweep all stored farms and answer status done with the farm count. -/
def run_checks (token : Option String)
    (fetch : ℚ → ℚ → Except String Reading) (db : DB) : RunResult :=
  if token ≠ some INTERNAL_TOKEN then .forbidden db
  else
    match sweep fetch db.farms db with
    | .ok db2 => .ok db2 ⟨"done", db.farms.length⟩
    | .error (e, db2) => .fetchFailed db2 e

/-- Newest-first comparison on alert rows: the ORDER BY timestamp DESC of
list_alerts. -/
def tsDesc (a b : Alert) : Prop := b.timestamp ≤ a.timestamp

instance : DecidableRel tsDesc := fun a b => Nat.decLe b.timestamp a.timestamp

instance : IsTotal Alert tsDesc := ⟨fun a b => Nat.le_total b.timestamp a.timestamp⟩

instance : IsTrans Alert tsDesc := ⟨fun _ _ _ h1 h2 => Nat.le_trans h2 h1⟩

/-- The list_alerts handler (src/app.py lines 116-118): all alert rows
ordered by timestamp descending, limited to 100. -/
def list_alerts (db : DB) : List Alert :=
  (db.alerts.insertionSort tsDesc).take 100

/-- C3: for every weather reading with temperature and humidity present,
humidity > 80, and temperature between 20 and 28 inclusive, the output of
evaluate_rules contains "Powdery mildew (possible)" exactly once. -/
theorem c3_powdery_exactly_once (w : Reading) (temp hum : ℚ)
    (ht : w.temperature = some temp) (hh : w.humidity = some hum)
    (h80 : 80 < hum) (h20 : 20 ≤ temp) (h28 : temp ≤ 28) :
    (evaluate_rules w).count powderyLabel = 1 := by
  cases w with
  | mk t hm r =>
    simp only at ht hh
    subst ht; subst hh
    simp only [evaluate_rules, List.count_append]
    rw [if_pos ⟨h80, h20, h28⟩]
    have ha : List.count powderyLabel (if 30 < temp ∧ hum < 40
        then [aphidsLabel] else []) = 0 := by
      split <;> simp [powderyLabel, aphidsLabel]
    have hg : List.count powderyLabel (if 85 < hum ∧ 5 < (r.getD 0 : ℚ)
        then [grayMoldLabel] else []) = 0 := by
      split <;> simp [powderyLabel, grayMoldLabel]
    simp [ha, hg]

/-- Witness instantiating c3_powdery_exactly_once at a concrete reading. -/
theorem c3_powdery_exactly_once_witness :
    (evaluate_rules ⟨some 25, some 90, some 0⟩).count powderyLabel = 1 :=
  c3_powdery_exactly_once ⟨some 25, some 90, some 0⟩ 25 90 rfl rfl
    (by norm_num) (by norm_num) (by norm_num)

/-- C4: for every weather reading in which temperature is absent or
humidity is absent, evaluate_rules returns the empty list, for every value
of rain. -/
theorem c4_missing_field_empty (w : Reading)
    (h : w.temperature = none ∨ w.humidity = none) :
    evaluate_rules w = [] := by
  cases w with
  | mk t hm r =>
    rcases h with h | h
    · simp only at h; subst h; cases hm <;> rfl
    · simp only at h; subst h; cases t <;> rfl

/-- Witness instantiating c4_missing_field_empty at a concrete reading with
temperature absent and rain large. -/
theorem c4_missing_field_empty_witness :
    evaluate_rules ⟨none, some 99, some 50⟩ = [] :=
  c4_missing_field_empty ⟨none, some 99, some 50⟩ (Or.inl rfl)

/-- C1 counterexample: a reading with humidity 90 > 85 and rain 10 > 5 but
temperature absent yields an output without "Gray mold / Botrytis
(possible)" (in fact empty), refuting the claim that the label appears
regardless of whether temperature is present. -/
theorem c1_counterexample :
    (85 < (90 : ℚ) ∧ 5 < (10 : ℚ)) ∧
      grayMoldLabel ∉ evaluate_rules ⟨none, some 90, some 10⟩ := by
  refine ⟨⟨by norm_num, by norm_num⟩, ?_⟩
  intro h
  simp [evaluate_rules] at h

/-- C1 amended: for every weather reading with temperature, humidity and
rain all present, humidity > 85 and rain > 5, the output of evaluate_rules
contains "Gray mold / Botrytis (possible)". -/
theorem c1_gray_mold (w : Reading) (temp hum rain : ℚ)
    (ht : w.temperature = some temp) (hh : w.humidity = some hum)
    (hr : w.rain_mm = some rain) (h85 : 85 < hum) (h5 : 5 < rain) :
    grayMoldLabel ∈ evaluate_rules w := by
  cases w with
  | mk t hm r =>
    simp only at ht hh hr
    subst ht; subst hh; subst hr
    simp only [evaluate_rules, Option.getD_some, List.mem_append]
    right
    rw [if_pos ⟨h85, h5⟩]
    exact List.mem_singleton.mpr rfl

/-- Witness instantiating c1_gray_mold at a concrete reading. -/
theorem c1_gray_mold_witness :
    grayMoldLabel ∈ evaluate_rules ⟨some 25, some 90, some 10⟩ :=
  c1_gray_mold ⟨some 25, some 90, some 10⟩ 25 90 10 rfl rfl rfl
    (by norm_num) (by norm_num)

/-- C10: for every weather reading, the output of evaluate_rules never
contains both "Powdery mildew (possible)" and "Aphids (possible)" (their
humidity conditions, > 80 versus < 40, exclude each other), and the output
list has length at most 2. -/
theorem c10_mutually_exclusive (w : Reading) :
    ¬(powderyLabel ∈ evaluate_rules w ∧ aphidsLabel ∈ evaluate_rules w) ∧
      (evaluate_rules w).length ≤ 2 := by
  cases w with
  | mk t hm r =>
    cases hm with
    | none => cases t <;> simp [evaluate_rules]
    | some hum =>
      cases t with
      | none => simp [evaluate_rules]
      | some temp =>
        simp only [evaluate_rules]
        split_ifs with h1 h2 h3 <;>
          first
            | decide
            | (exfalso; exact absurd h2.2 (not_lt.mpr (le_of_lt
                (lt_trans (by norm_num) h1.1))))

/-- C5: for every token not equal to the configured secret, run_checks
answers forbidden (the 403 raised at line 125), and the store — in
particular its set of alerts — is unchanged: no farm is processed and zero
alerts are created. -/
theorem c5_bad_token_forbidden (token : Option String)
    (fetch : ℚ → ℚ → Except String Reading) (db : DB)
    (h : token ≠ some INTERNAL_TOKEN) :
    run_checks token fetch db = .forbidden db ∧
      (run_checks token fetch db).store.alerts = db.alerts := by
  unfold run_checks
  rw [if_pos h]
  exact ⟨rfl, rfl⟩

def wrongTokenFetch : ℚ → ℚ → Except String Reading :=
  fun _ _ => .ok ⟨some 25, some 90, some 10⟩

def wrongTokenDB : DB := ⟨[⟨1, "A", 1, 1⟩], [], 0, 0⟩

/-- Witness instantiating c5_bad_token_forbidden at a wrong concrete token
over a store holding one farm whose fetched weather would match rules. -/
theorem c5_bad_token_forbidden_witness :
    run_checks (some "wrong-token") wrongTokenFetch wrongTokenDB =
        .forbidden wrongTokenDB ∧
      (run_checks (some "wrong-token") wrongTokenFetch
        wrongTokenDB).store.alerts = wrongTokenDB.alerts :=
  c5_bad_token_forbidden (some "wrong-token") wrongTokenFetch wrongTokenDB
    (by decide)

/-- Sweeping a concatenation runs the first block, then from its resulting
store the second, with a fetch error short-circuiting. -/
theorem sweep_append (fetch : ℚ → ℚ → Except String Reading)
    (l1 l2 : List Farm) (db : DB) :
    sweep fetch (l1 ++ l2) db =
      (sweep fetch l1 db).bind (fun db1 => sweep fetch l2 db1) := by
  induction l1 generalizing db with
  | nil => rfl
  | cons farm rest ih =>
    simp only [List.cons_append, sweep]
    cases fetch farm.latitude farm.longitude with
    | error e => rfl
    | ok weather => exact ih _

/-- The store reached by a sweep, whether it finished or aborted on a fetch
error. -/
def sweepStore : Except (String × DB) DB → DB
  | .ok db => db
  | .error (_, db) => db

/-- A sweep only appends alert rows, and every appended row belongs to one
of the swept farms. -/
theorem sweep_alerts_extend (fetch : ℚ → ℚ → Except String Reading)
    (farms : List Farm) (db : DB) :
    ∃ t, (sweepStore (sweep fetch farms db)).alerts = db.alerts ++ t ∧
      ∀ a ∈ t, a.farm_id ∈ farms.map Farm.id := by
  induction farms generalizing db with
  | nil => exact ⟨[], by simp [sweep, sweepStore]⟩
  | cons farm rest ih =>
    simp only [sweep]
    cases hf : fetch farm.latitude farm.longitude with
    | error e => exact ⟨[], by simp [sweepStore]⟩
    | ok weather =>
      by_cases hp : evaluate_rules weather = []
      · simp only [hp, if_pos rfl]
        obtain ⟨t, ht, hmem⟩ := ih db
        exact ⟨t, ht, fun a ha => by simp [hmem a ha]⟩
      · simp only [if_neg hp]
        obtain ⟨t, ht, hmem⟩ := ih
          (addAlert db farm.id (alertMessage farm.name (evaluate_rules weather)))
        refine ⟨⟨db.nextAlertId, farm.id,
          alertMessage farm.name (evaluate_rules weather), db.clock⟩ :: t,
          ?_, ?_⟩
        · simpa [addAlert] using ht
        · intro a ha
          rcases List.mem_cons.mp ha with h | h
          · subst h; simp
          · simp [hmem a h]

/-- C6: if the stored farms split as pre ++ f :: post, the sweep over pre
from the initial store succeeds with store db1, and the weather fetch for f
fails with e, then run_checks with the correct token aborts as a server
error carrying exactly db1: the error is not caught per farm, alerts
committed for the earlier farms remain (db1 only appends rows, all owned by
farms of pre), and no alert is written for f or any later farm. -/
theorem c6_fetch_error_aborts (fetch : ℚ → ℚ → Except String Reading)
    (pre post : List Farm) (f : Farm) (e : String) (db db1 : DB)
    (hfarms : db.farms = pre ++ f :: post)
    (hpre : sweep fetch pre db = .ok db1)
    (hf : fetch f.latitude f.longitude = .error e) :
    run_checks (some INTERNAL_TOKEN) fetch db = .fetchFailed db1 e ∧
      ∃ t, db1.alerts = db.alerts ++ t ∧
        ∀ a ∈ t, a.farm_id ∈ pre.map Farm.id := by
  constructor
  · unfold run_checks
    rw [if_neg (by simp)]
    rw [hfarms, sweep_append, hpre]
    simp only [Except.bind, sweep, hf]
  · have := sweep_alerts_extend fetch pre db
    rwa [hpre] at this

def twoFarmFetch : ℚ → ℚ → Except String Reading :=
  fun lat _ => if lat = 1 then .ok ⟨some 25, some 90, some 10⟩
               else .error "boom"

def farmOne : Farm := ⟨1, "A", 1, 1⟩

def farmTwo : Farm := ⟨2, "B", 2, 2⟩

def twoFarmDB : DB := ⟨[farmOne, farmTwo], [], 0, 0⟩

def twoFarmDB1 : DB :=
  ⟨[farmOne, farmTwo],
    [⟨0, 1, alertMessage "A" [powderyLabel, grayMoldLabel], 0⟩], 1, 1⟩

/-- Witness instantiating c6_fetch_error_aborts: two farms, the first fetch
succeeds and commits an alert, the second fetch fails. -/
theorem c6_fetch_error_aborts_witness :
    run_checks (some INTERNAL_TOKEN) twoFarmFetch twoFarmDB =
        .fetchFailed twoFarmDB1 "boom" ∧
      ∃ t, twoFarmDB1.alerts = twoFarmDB.alerts ++ t ∧
        ∀ a ∈ t, a.farm_id ∈ [farmOne].map Farm.id :=
  c6_fetch_error_aborts twoFarmFetch [farmOne] [] farmTwo "boom"
    twoFarmDB twoFarmDB1 rfl rfl rfl

/-- When every farm's fetch succeeds, the sweep finishes. -/
theorem sweep_ok_of_fetch_ok (fetch : ℚ → ℚ → Except String Reading)
    (farms : List Farm) (db : DB)
    (h : ∀ f ∈ farms, ∃ w, fetch f.latitude f.longitude = .ok w) :
    ∃ db2, sweep fetch farms db = .ok db2 := by
  induction farms generalizing db with
  | nil => exact ⟨db, rfl⟩
  | cons farm rest ih =>
    obtain ⟨w, hw⟩ := h farm (List.mem_cons_self farm rest)
    simp only [sweep, hw]
    exact ih _ (fun f hf => h f (List.mem_cons_of_mem farm hf))

/-- C7: for every run-checks call with the correct token in which every
stored farm's weather fetch succeeds, the summary is status done with
checked equal to the number of farms stored at the start of the sweep. -/
theorem c7_summary_done (fetch : ℚ → ℚ → Except String Reading) (db : DB)
    (h : ∀ f ∈ db.farms, ∃ w, fetch f.latitude f.longitude = .ok w) :
    ∃ db2, run_checks (some INTERNAL_TOKEN) fetch db =
      .ok db2 ⟨"done", db.farms.length⟩ := by
  obtain ⟨db2, h2⟩ := sweep_ok_of_fetch_ok fetch db.farms db h
  refine ⟨db2, ?_⟩
  unfold run_checks
  rw [if_neg (by simp), h2]

def allOkFetch : ℚ → ℚ → Except String Reading :=
  fun _ _ => .ok ⟨some 25, some 90, some 10⟩

def allOkDB : DB := ⟨[farmOne, farmTwo], [], 0, 0⟩

/-- Witness instantiating c7_summary_done on a two-farm store with an
always-succeeding fetch. -/
theorem c7_summary_done_witness :
    ∃ db2, run_checks (some INTERNAL_TOKEN) allOkFetch allOkDB =
      .ok db2 ⟨"done", allOkDB.farms.length⟩ :=
  c7_summary_done allOkFetch allOkDB
    (fun _ _ => ⟨⟨some 25, some 90, some 10⟩, rfl⟩)

/-- C8: for every state of the alert store, list_alerts returns at most 100
records, ordered by timestamp descending (most recent first). -/
theorem c8_list_alerts_capped_sorted (db : DB) :
    (list_alerts db).length ≤ 100 ∧ (list_alerts db).Sorted tsDesc := by
  constructor
  · exact List.length_take_le 100 (db.alerts.insertionSort tsDesc)
  · exact List.Pairwise.sublist (List.take_sublist 100 _)
      (List.sorted_insertionSort tsDesc db.alerts)

/-- Substring containment on strings, stated over the underlying character
lists. -/
def strContains (s pat : String) : Prop := pat.data <:+: s.data

instance (s pat : String) : Decidable (strContains s pat) :=
  List.decidableInfix pat.data s.data

def oneFarmDB : DB := ⟨[farmOne], [], 0, 0⟩

set_option maxRecDepth 4000 in
/-- C2 counterexample: with the stubbed weather {temp 25, humidity 90, rain
10}, run_checks creates exactly one alert, but its message carries only the
two matched labels — 25 is not above the Aphids threshold 30, so "Aphids
(possible)" does not occur in the message, refuting the all-three-labels
claim. -/
theorem c2_counterexample :
    run_checks (some INTERNAL_TOKEN) allOkFetch oneFarmDB =
        .ok ⟨[farmOne],
          [⟨0, 1, alertMessage "A" [powderyLabel, grayMoldLabel], 0⟩], 1, 1⟩
          ⟨"done", 1⟩ ∧
      ¬ strContains (alertMessage "A" [powderyLabel, grayMoldLabel])
        aphidsLabel := by
  constructor
  · rfl
  · decide

/-- C2 amended: if the store holds exactly one farm and its weather fetch
returns {temp 25, humidity 90, rain 10}, a run-checks call with the correct
token creates exactly one Alert for that farm, whose message is the farm
name followed by the two matched labels "Powdery mildew (possible)" and
"Gray mold / Botrytis (possible)" joined by the semicolon-space separator
("Aphids (possible)" is not matched, since 25 is not above 30). -/
theorem c2_two_matched_labels (fetch : ℚ → ℚ → Except String Reading)
    (db : DB) (f : Farm) (hfarms : db.farms = [f])
    (hfetch : fetch f.latitude f.longitude = .ok ⟨some 25, some 90, some 10⟩) :
    ∃ s, run_checks (some INTERNAL_TOKEN) fetch db = .ok s ⟨"done", 1⟩ ∧
      s.alerts = db.alerts ++
        [⟨db.nextAlertId, f.id,
          alertMessage f.name [powderyLabel, grayMoldLabel], db.clock⟩] := by
  have hev : evaluate_rules ⟨some 25, some 90, some 10⟩ =
      [powderyLabel, grayMoldLabel] := by decide
  refine ⟨addAlert db f.id (alertMessage f.name [powderyLabel, grayMoldLabel]),
    ?_, by simp [addAlert]⟩
  unfold run_checks
  rw [if_neg (by simp), hfarms]
  simp only [sweep, hfetch, hev, List.length_cons, List.length_nil]
  rw [if_neg (List.cons_ne_nil _ _)]

/-- Witness instantiating c2_two_matched_labels on the concrete one-farm
store with the stubbed fetch. -/
theorem c2_two_matched_labels_witness :
    ∃ s, run_checks (some INTERNAL_TOKEN) allOkFetch oneFarmDB =
        .ok s ⟨"done", 1⟩ ∧
      s.alerts = oneFarmDB.alerts ++
        [⟨oneFarmDB.nextAlertId, farmOne.id,
          alertMessage farmOne.name [powderyLabel, grayMoldLabel],
          oneFarmDB.clock⟩] :=
  c2_two_matched_labels allOkFetch oneFarmDB farmOne rfl rfl

/-- A JSON value, modelling the provider payload parsed at src/app.py
line 75. -/
inductive Json where
  | null
  | num (q : ℚ)
  | str (s : String)
  | bool (b : Bool)
  | arr (elems : List Json)
  | obj (fields : List (String × Json))

/-- Association lookup over the key-value pairs of a JSON object: the dict
indexing and .get of the Python code (keys of a Python dict are unique; the
first binding wins). -/
def lookupField : List (String × Json) → String → Option Json
  | [], _ => none
  | (k, v) :: rest, key => if k = key then some v else lookupField rest key

/-- Lookup of a key on an arbitrary JSON value: some only when the value is
an object containing the key. -/
def Json.objLookup : Json → String → Option Json
  | .obj fields, key => lookupField fields key
  | _, _ => none

/-- The rain extraction of get_weather (src/app.py lines 77-79): the "1h"
member when "rain" is a dict, with 0 as the default for a missing key, a
non-dict "rain" value, or no "rain" key at all. -/
def rainOf (fields : List (String × Json)) : Json :=
  match lookupField fields "rain" with
  | some (.obj rfields) => (lookupField rfields "1h").getD (.num 0)
  | some _ => .num 0
  | none => .num 0

/-- The normalized reading built by get_weather (src/app.py lines 80-85),
with field values kept as raw JSON. -/
structure NormReading where
  temperature : Option Json
  humidity : Option Json
  rain_mm : Json
  raw : Json

/-- The JSON-normalization stage of get_weather (src/app.py lines 76-85),
after the HTTP fetch and parse: main defaults to an empty dict when the
key is absent, temp and humidity come from main, rain from rainOf, and
the raw payload is kept. A non-dict payload, or a present non-dict "main"
value, makes the Python code raise (AttributeError on .get), modelled as
an error. -/
def get_weather_normalize (data : Json) : Except String NormReading :=
  match data with
  | .obj fields =>
    match (lookupField fields "main").getD (.obj []) with
    | .obj mfields =>
        .ok ⟨lookupField mfields "temp", lookupField mfields "humidity",
             rainOf fields, data⟩
    | _ => .error "AttributeError"
  | _ => .error "AttributeError"

/-- C9: for every provider payload on which get_weather returns a
normalized reading, rain equals payload rain 1h when "rain" is a dict
containing "1h" and 0 when "rain" is absent, not a dict, or lacks "1h";
temperature and humidity are the "temp" and "humidity" members of the
payload's "main" object and are absent when that object or those keys are
missing. -/
theorem c9_get_weather_normalized (data : Json) (r : NormReading)
    (h : get_weather_normalize data = .ok r) :
    r.temperature = (data.objLookup "main").bind
        (fun m => m.objLookup "temp") ∧
      r.humidity = (data.objLookup "main").bind
        (fun m => m.objLookup "humidity") ∧
      r.rain_mm = ((data.objLookup "rain").bind
        (fun rv => rv.objLookup "1h")).getD (.num 0) := by
  cases data with
  | obj fields =>
    have hrain : rainOf fields = ((Json.objLookup (.obj fields) "rain").bind
        (fun rv => rv.objLookup "1h")).getD (.num 0) := by
      simp only [Json.objLookup, rainOf]
      cases hr : lookupField fields "rain" with
      | none => rfl
      | some rv => cases rv <;> rfl
    simp only [get_weather_normalize] at h
    cases hm : lookupField fields "main" with
    | none =>
      rw [hm] at h
      simp only [Option.getD_none] at h
      cases h
      simp only [Json.objLookup, hm, Option.bind_none]
      exact ⟨rfl, rfl, hrain⟩
    | some mv =>
      rw [hm] at h
      simp only [Option.getD_some] at h
      cases mv with
      | obj mfields =>
        cases h
        simp only [Json.objLookup, hm, Option.bind_some]
        exact ⟨rfl, rfl, hrain⟩
      | null => exact absurd h (by simp)
      | num q => exact absurd h (by simp)
      | str s => exact absurd h (by simp)
      | bool b => exact absurd h (by simp)
      | arr elems => exact absurd h (by simp)
  | null => exact absurd h (by simp [get_weather_normalize])
  | num q => exact absurd h (by simp [get_weather_normalize])
  | str s => exact absurd h (by simp [get_weather_normalize])
  | bool b => exact absurd h (by simp [get_weather_normalize])
  | arr elems => exact absurd h (by simp [get_weather_normalize])

def samplePayload : Json :=
  .obj [("main", .obj [("temp", .num 25), ("humidity", .num 90)]),
        ("rain", .obj [("1h", .num 10)])]

def sampleReading : NormReading :=
  ⟨some (.num 25), some (.num 90), .num 10, samplePayload⟩

/-- Witness instantiating c9_get_weather_normalized on a concrete payload
with main.temp, main.humidity and rain.1h all present. -/
theorem c9_get_weather_normalized_witness :
    sampleReading.temperature = (samplePayload.objLookup "main").bind
        (fun m => m.objLookup "temp") ∧
      sampleReading.humidity = (samplePayload.objLookup "main").bind
        (fun m => m.objLookup "humidity") ∧
      sampleReading.rain_mm = ((samplePayload.objLookup "rain").bind
        (fun rv => rv.objLookup "1h")).getD (.num 0) :=
  c9_get_weather_normalized samplePayload sampleReading rfl

end PestAlarm
